import Mathlib

/-!
Verification of the Text-to-SQL agent service (tool orchestration, retry
policy, fallback routing, chart-classification degradation and the sandboxed
chart-rendering pipeline) against a shallow embedding of the Python sources
under `src/service/src/service/`.

External effects (remote skill calls via the kernel, the SQLite engine, the
child process running generated plotting code, the filesystem) are modelled
as explicit oracle inputs; the control flow of the Python functions is
translated directly.
-/

mutual

/-- JSON-like values, the payload type of skill replies, tool arguments and
tool results (`Json` in `kernel.py`).  Encoded mutually with its list and
object spines so that equality is decidable. -/
inductive Json where
  | null
  | bool (b : Bool)
  | num (n : Int)
  | str (s : String)
  | arr (xs : JsonList)
  | obj (fields : JsonObj)
deriving DecidableEq, Repr

inductive JsonList where
  | nil
  | cons (hd : Json) (tl : JsonList)
deriving DecidableEq, Repr

inductive JsonObj where
  | nil
  | cons (key : String) (val : Json) (tl : JsonObj)
deriving DecidableEq, Repr

end

/-- Length of a JSON array spine (Python `len`). -/
def JsonList.length : JsonList → Nat
  | .nil => 0
  | .cons _ tl => 1 + tl.length

/-- Dictionary lookup, `d.get(key)` / `d[key]` on a Python dict: the value at
the first matching key, if any. -/
def JsonObj.find : JsonObj → String → Option Json
  | .nil, _ => none
  | .cons k v tl, key => if k == key then some v else tl.find key

/-- Dictionary lookup with default, `d.get(key, default)`: the stored value
whenever the key is present (even if falsy), the default otherwise. -/
def JsonObj.findD (o : JsonObj) (key : String) (d : Json) : Json :=
  (o.find key).getD d

/-- Python truthiness of a JSON value: `None`, `False`, `0`, `""`, `[]` and
`{}` are falsy, everything else is truthy. -/
def Json.truthy : Json → Bool
  | .null => false
  | .bool b => b
  | .num n => n != 0
  | .str s => s != ""
  | .arr .nil => false
  | .arr (.cons _ _) => true
  | .obj .nil => false
  | .obj (.cons _ _ _) => true

/-- Truthiness of `context.get(key)`: falsy when the key is absent (Python
`None`), otherwise the truthiness of the stored value. -/
def ctxTruthy (context : JsonObj) (key : String) : Bool :=
  ((context.find key).getD Json.null).truthy

/-- Member access `j[key]` used on a skill result of unknown shape: `some`
value for an object containing the key; `none` models the `KeyError` /
`TypeError` raised otherwise (the callers catch it as a generic exception). -/
def Json.member : Json → String → Option Json
  | .obj fields, key => fields.find key
  | _, _ => none

/-- Routing decision produced by the tool router or the local fallback
(`ToolRouterDecision` in `models.py`): a tool name and its arguments dict. -/
structure ToolRouterDecision where
  tool : String
  arguments : JsonObj
deriving DecidableEq, Repr

/-- Local fallback routing rule, `_fallback_tool_decision` in `routes.py`.
The guards are the Python truthiness tests `context.get("query")` and
`context.get("headers")`; the direct index `context["query"]` is modelled as
a possible `KeyError` (the `.error` branches), which lets totality be stated
as a theorem rather than assumed. -/
def fallbackToolDecision (message : String) (context : JsonObj) :
    Except String ToolRouterDecision :=
  if ctxTruthy context "query" && !ctxTruthy context "headers" then
    match context.find "query" with
    | some q => .ok ⟨"execute_sql", .cons "query" q .nil⟩
    | none => .error "KeyError: query"
  else if ctxTruthy context "headers" then
    match context.find "headers" with
    | some h => .ok ⟨"generate_chart",
        .cons "query" (context.findD "query" (.str ""))
          (.cons "headers" h
            (.cons "rows" (context.findD "rows" (.arr .nil)) .nil))⟩
    | none => .error "KeyError: headers"
  else
    .ok ⟨"generate_sql", .cons "question" (.str message) .nil⟩

/-- Outcome of one `kernel.run` call as observed by the caller: a parsed JSON
reply, a `KernelException` (non-2xx status, `kernel.py`), or any other
exception (e.g. a JSON-decode failure), carrying its message. -/
inductive SkillCallResult where
  | reply (r : Json)
  | kernelError (msg : String)
  | otherError (msg : String)
deriving DecidableEq, Repr

/-- Routing step `_get_tool_decision` in `routes.py`, as a function of the
tool-router call outcome.  A `KernelException` is recovered via the local
fallback; any other exception yields `none`; a parsed reply is read with
`reply.get("tool", "")` / `reply.get("arguments", {})`, where a non-object
reply (the `.get` raises) or non-string tool / non-object arguments (pydantic
validation of `ToolRouterDecision` fails) fall into the generic exception
handler and also yield `none`. -/
def getToolDecision (call : SkillCallResult) (message : String)
    (context : JsonObj) : Option ToolRouterDecision :=
  match call with
  | .reply r =>
    match r with
    | .obj fields =>
      match fields.findD "tool" (.str ""), fields.findD "arguments" (.obj .nil) with
      | .str t, .obj args => some ⟨t, args⟩
      | _, _ => none
    | _ => none
  | .kernelError _ =>
    match fallbackToolDecision message context with
    | .ok d => some d
    | .error _ => none
  | .otherError _ => none

/-- Agent response value (`AgentResponse` in `models.py`). -/
structure AgentResponse where
  response_type : String
  data : Json
  tool_used : String
  success : Bool
deriving DecidableEq, Repr

/-- Error response constructor `_error_response` in `routes.py`. -/
def errorResponse (error : String) (tool_used : String) : AgentResponse :=
  ⟨"error", Json.obj (.cons "error" (.str error) .nil), tool_used, false⟩

/-- Decision phase of `agent_endpoint` in `routes.py`: when
`_get_tool_decision` returns no decision the endpoint immediately returns
the error response "Could not determine tool"; otherwise orchestration
proceeds with the decision. -/
def agentDecide (call : SkillCallResult) (message : String)
    (context : JsonObj) : Except AgentResponse ToolRouterDecision :=
  match getToolDecision call message context with
  | none => .error (errorResponse "Could not determine tool" "unknown")
  | some d => .ok d

/-- Boolean test that `pat` occurs at the head of `cs`. -/
def charsStartWith : List Char → List Char → Bool
  | [], _ => true
  | _ :: _, [] => false
  | a :: as, b :: bs => a == b && charsStartWith as bs

/-- Boolean substring test on character lists (Python `pat in s`). -/
def charsContain (pat : List Char) : List Char → Bool
  | [] => pat.isEmpty
  | c :: rest => charsStartWith pat (c :: rest) || charsContain pat rest

/-- Python `pat in haystack` on strings: substring containment. -/
def strContains (haystack pat : String) : Bool :=
  charsContain pat.data haystack.data

/-- Python `s.lower()`: lower-case every character. -/
def strLower (s : String) : String :=
  ⟨s.data.map Char.toLower⟩

/-- Keyword list of `_is_fixable_sql_error` in `routes.py`. -/
def fixableErrors : List String :=
  ["no such function", "syntax error", "no such column", "near"]

/-- Retryability test `_is_fixable_sql_error` in `routes.py`:
`any(err in error.lower() for err in fixable_errors)`. -/
def isFixableSqlError (error : String) : Bool :=
  fixableErrors.any (fun err => strContains (strLower error) err)

/-- One tool invocation issued through `execute_tool` in `mcp_server.py`:
tool name plus keyword-argument dict. -/
structure ToolCall where
  name : String
  arguments : JsonObj
deriving DecidableEq, Repr

/-- Result of one `execute_tool` invocation: the returned data, or the
message of the exception it raised. -/
inductive ToolResult where
  | ok (data : Json)
  | raised (msg : String)
deriving DecidableEq, Repr

/-- Response-type table of `_execute_with_retry` in `routes.py`:
`response_types.get(decision.tool, ToolResponseType.ERROR)`. -/
def responseTypeFor (tool : String) : String :=
  if tool == "generate_sql" then "sql_query"
  else if tool == "execute_sql" then "query_results"
  else if tool == "classify_chart_type" then "chart_type"
  else if tool == "generate_chart" then "chart_image"
  else "error"

/-- Retry call to `generate_sql` issued by `_retry_sql_with_correction` in
`routes.py`: the question is `context.get("original_question", message)` and
the feedback is the failing error text. -/
def retryGenCall (error message : String) (context : JsonObj) : ToolCall :=
  ⟨"generate_sql",
    .cons "question" (context.findD "original_question" (.str message))
      (.cons "error_feedback" (.str error) .nil)⟩

/-- Retried call to `execute_sql` with the corrected query
`corrected["sql_query"]`. -/
def retryExecCall (sq : Json) : ToolCall :=
  ⟨"execute_sql", .cons "query" sq .nil⟩

/-- Self-correction step `_retry_sql_with_correction` in `routes.py`, as a
function of the tool-call oracle `env` (indexed by call position within the
turn: the initial call is 0, the retry `generate_sql` is 1, the retried
`execute_sql` is 2).  Returns the response (or `none` when the retry failed,
including when the regenerated result lacks `sql_query`) together with the
list of tool calls it issued. -/
def retrySqlWithCorrection (env : Nat → ToolCall → ToolResult)
    (error message : String) (context : JsonObj) :
    Option AgentResponse × List ToolCall :=
  match env 1 (retryGenCall error message context) with
  | .raised _ => (none, [retryGenCall error message context])
  | .ok corrected =>
    match corrected.member "sql_query" with
    | none => (none, [retryGenCall error message context])
    | some sq =>
      match env 2 (retryExecCall sq) with
      | .raised _ => (none, [retryGenCall error message context, retryExecCall sq])
      | .ok data => (some ⟨"query_results", data, "execute_sql", true⟩,
                     [retryGenCall error message context, retryExecCall sq])

/-- Orchestration step `_execute_with_retry` in `routes.py`, as a function of
the tool-call oracle `env`.  Returns the agent response together with the
list of tool calls issued during the turn. -/
def executeWithRetry (env : Nat → ToolCall → ToolResult)
    (decision : ToolRouterDecision) (message : String) (context : JsonObj) :
    AgentResponse × List ToolCall :=
  match env 0 ⟨decision.tool, decision.arguments⟩ with
  | .ok data => (⟨responseTypeFor decision.tool, data, decision.tool, true⟩,
                 [⟨decision.tool, decision.arguments⟩])
  | .raised e =>
    if decision.tool == "execute_sql" && isFixableSqlError e then
      match retrySqlWithCorrection env e message context with
      | (some resp, calls) => (resp, ⟨decision.tool, decision.arguments⟩ :: calls)
      | (none, calls) =>
          (errorResponse e decision.tool, ⟨decision.tool, decision.arguments⟩ :: calls)
    else
      (errorResponse e decision.tool, [⟨decision.tool, decision.arguments⟩])

/-- Tool wrapper `tool_classify_chart_type` in `tools.py`, as a function of
the chart-classifier call outcome.  On a parsed reply the chart type is read
with `response.get("chart_type", "bar")`; a non-object reply, or a non-string
chart type (`chart_type.upper()` raises), lands in the generic exception
handler (the raised message is abbreviated here as "AttributeError").  On a
`KernelException` or any other exception the result dict reports
`success: false` with the error text, still carrying `chart_type: "bar"`. -/
def toolClassifyChartType (call : SkillCallResult) (headers : Json)
    (rows : JsonList) : Json :=
  match call with
  | .kernelError e =>
      Json.obj (.cons "success" (.bool false)
        (.cons "error" (.str e) (.cons "chart_type" (.str "bar") .nil)))
  | .otherError e =>
      Json.obj (.cons "success" (.bool false)
        (.cons "error" (.str e) (.cons "chart_type" (.str "bar") .nil)))
  | .reply r =>
    match r with
    | .obj fields =>
      match fields.findD "chart_type" (.str "bar") with
      | .str ct =>
          Json.obj (.cons "success" (.bool true)
            (.cons "chart_type" (.str ct)
              (.cons "rows_count" (.num rows.length)
                (.cons "headers" headers .nil))))
      | _ =>
          Json.obj (.cons "success" (.bool false)
            (.cons "error" (.str "AttributeError")
              (.cons "chart_type" (.str "bar") .nil)))
    | _ =>
        Json.obj (.cons "success" (.bool false)
          (.cons "error" (.str "AttributeError")
            (.cons "chart_type" (.str "bar") .nil)))

/-- Capability `_run_classify_chart_type` in `mcp_server.py`: raises (the
`.error` branch) with the tool result's error text when `result["success"]`
is falsy, otherwise returns the `{chart_type, headers, rows_count}` dict.
Success results always contain these keys and the error value is always a
string, so the defaulting branches are unreachable. -/
def runClassifyChartType (call : SkillCallResult) (headers : Json)
    (rows : JsonList) : Except String Json :=
  let result := toolClassifyChartType call headers rows
  if ((result.member "success").getD .null).truthy then
    .ok (Json.obj (.cons "chart_type" ((result.member "chart_type").getD .null)
      (.cons "headers" ((result.member "headers").getD .null)
        (.cons "rows_count" ((result.member "rows_count").getD .null) .nil))))
  else
    .error (match (result.member "error").getD (.str "Chart classification failed") with
            | .str s => s
            | _ => "")

/-- Chart-code acquisition, step 2 of `_generate_chart_code` in
`chart_service.py`, as a function of the chart-generator call outcome.  A
falsy `chart_code` raises "Failed to generate chart code" (uncaught by the
surrounding `except KernelException`); a `KernelException` raises
"Chart generation skill not available"; any other exception propagates with
its own message; a non-object reply or non-string truthy code raises an
attribute error (abbreviated "AttributeError"). -/
def generateChartCode (call : SkillCallResult) : Except String String :=
  match call with
  | .kernelError _ => .error "Chart generation skill not available"
  | .otherError e => .error e
  | .reply r =>
    match r with
    | .obj fields =>
      match fields.find "chart_code" with
      | some (.str s) =>
          if s == "" then .error "Failed to generate chart code" else .ok s
      | some v =>
          if v.truthy then .error "AttributeError"
          else .error "Failed to generate chart code"
      | none => .error "Failed to generate chart code"
    | _ => .error "AttributeError"

/-- Observable behaviour of the child process spawned by
`_execute_chart_generation` in `chart_service.py`: wall-clock duration in
seconds, exit code, captured streams, and whether the generated code saved
the expected PNG artifact (with its bytes). -/
structure ChildProcess where
  duration : Nat
  exitCode : Int
  stdout : String
  stderr : String
  savesArtifact : Bool
  artifactBytes : List Nat
deriving DecidableEq, Repr

/-- Result of `subprocess.run(..., timeout=60)`: `TimeoutExpired` when the
child exceeds the 60-second bound, otherwise a completed process with its
exit code and captured streams. -/
inductive ProcOutcome where
  | timedOut
  | completed (exitCode : Int) (stdout : String) (stderr : String)
deriving DecidableEq, Repr

/-- Child-process execution `_execute_chart_generation` in
`chart_service.py` under its fixed `timeout=60`. -/
def executeChartGeneration (child : ChildProcess) : ProcOutcome :=
  if 60 < child.duration then .timedOut
  else .completed child.exitCode child.stdout child.stderr

/-- Standard base64 alphabet used by Python `base64.b64encode`. -/
def base64Alphabet : List Char :=
  "ABCDEFGHIJKLMNOPQRSTUVWXYZabcdefghijklmnopqrstuvwxyz0123456789+/".data

/-- Sextet to base64 character. -/
def base64Char (n : Nat) : Char :=
  base64Alphabet.getD n 'A'

/-- Base64 encoding of a byte list, three bytes per group with `=` padding
(Python `base64.b64encode`). -/
def base64Chunks : List Nat → List Char
  | [] => []
  | [b0] => [base64Char (b0 / 4), base64Char (b0 % 4 * 16), '=', '=']
  | [b0, b1] => [base64Char (b0 / 4), base64Char (b0 % 4 * 16 + b1 / 16),
                 base64Char (b1 % 16 * 4), '=']
  | b0 :: b1 :: b2 :: rest =>
      base64Char (b0 / 4) :: base64Char (b0 % 4 * 16 + b1 / 16) ::
      base64Char (b1 % 16 * 4 + b2 / 64) :: base64Char (b2 % 64) ::
      base64Chunks rest

/-- Python `base64.b64encode(bytes).decode("utf-8")`: the encoded output is
ASCII, so the decode step is the identity on the character sequence. -/
def base64Encode (bytes : List Nat) : String :=
  ⟨base64Chunks bytes⟩

/-- Execution-and-recovery phase of `generate_chart_image` in
`chart_service.py` (steps 5-6, after the code has been materialized): a
`TimeoutExpired` raises "Chart generation timed out"; a non-zero exit raises
the stderr-carrying failure, re-wrapped by the generic handler; a zero exit
without the PNG artifact raises the missing-artifact failure, re-wrapped
likewise; otherwise the artifact bytes are read and base64-encoded. -/
def generateChartImageRun (child : ChildProcess) : Except String String :=
  match executeChartGeneration child with
  | .timedOut => .error "Chart generation timed out"
  | .completed rc _ err =>
    if rc != 0 then
      .error ("Error executing chart code: Chart generation failed: " ++ err)
    else if child.savesArtifact then .ok (base64Encode child.artifactBytes)
    else .error "Error executing chart code: Chart image was not generated"

/-- Decidable equality for exception-carrying results, so concrete runs can
be checked by `decide`. -/
instance {ε α : Type} [DecidableEq ε] [DecidableEq α] :
    DecidableEq (Except ε α) := fun a b =>
  match a, b with
  | .ok x, .ok y =>
    if h : x = y then isTrue (by rw [h])
    else isFalse (by intro c; injection c; contradiction)
  | .error x, .error y =>
    if h : x = y then isTrue (by rw [h])
    else isFalse (by intro c; injection c; contradiction)
  | .ok _, .error _ => isFalse (by intro c; cases c)
  | .error _, .ok _ => isFalse (by intro c; cases c)

/-- A live temporary directory in the filesystem model: its identity and the
files currently inside it. -/
structure Workspace where
  id : Nat
  files : List String
deriving DecidableEq, Repr

/-- Fresh directory name chosen by `tempfile.TemporaryDirectory()`: distinct
from every live directory. -/
def freshWorkspaceId (fs : List Workspace) : Nat :=
  (fs.map Workspace.id).foldr max 0 + 1

/-- Scoped-resource semantics of `with tempfile.TemporaryDirectory()`: create
a fresh empty directory, run the body (which may read and write inside it and
ends in a value, exceptional results included), then recursively delete the
directory whatever the body produced. -/
def withTempDir (fs : List Workspace)
    (body : Nat → List Workspace → Except String String × List Workspace) :
    Except String String × List Workspace :=
  let wid := freshWorkspaceId fs
  let acquired := Workspace.mk wid [] :: fs
  let run := body wid acquired
  (run.1, run.2.filter (fun w => w.id != wid))

/-- Write a file into the workspace `wid` (`open(..., "w")` inside the
temporary directory). -/
def wsAddFile (fs : List Workspace) (wid : Nat) (f : String) :
    List Workspace :=
  fs.map (fun w => if w.id == wid then ⟨w.id, f :: w.files⟩ else w)

/-- Existence check `os.path.exists` for a file of the workspace `wid`. -/
def wsHasFile (fs : List Workspace) (wid : Nat) (f : String) : Bool :=
  fs.any (fun w => w.id == wid && w.files.contains f)

/-- Body of the `with` block of `generate_chart_image` in `chart_service.py`:
materialize `data.py` and `chart.py` into the workspace, execute the child
process (which writes the PNG artifact exactly when the generated code saved
it), then branch on the process outcome, the exit code, and the artifact's
existence in the workspace. -/
def chartRenderBody (child : ChildProcess) (pngName : String) (wid : Nat)
    (fs : List Workspace) : Except String String × List Workspace :=
  let fs1 := wsAddFile fs wid "data.py"
  let fs2 := wsAddFile fs1 wid "chart.py"
  match executeChartGeneration child with
  | .timedOut => (.error "Chart generation timed out", fs2)
  | .completed rc _ err =>
    let fs3 := if child.savesArtifact then wsAddFile fs2 wid pngName else fs2
    if rc != 0 then
      (.error ("Error executing chart code: Chart generation failed: " ++ err), fs3)
    else if wsHasFile fs3 wid pngName then
      (.ok (base64Encode child.artifactBytes), fs3)
    else
      (.error "Error executing chart code: Chart image was not generated", fs3)

/-- Rendering pipeline `generate_chart_image` in `chart_service.py` with the
filesystem threaded through: chart-code acquisition happens before any
workspace exists (its failure propagates with the filesystem untouched);
afterwards the whole job runs inside `with tempfile.TemporaryDirectory()`. -/
def generateChartImageFs (fs : List Workspace)
    (codeResult : Except String String) (child : ChildProcess)
    (pngName : String) : Except String String × List Workspace :=
  match codeResult with
  | .error e => (.error e, fs)
  | .ok _ => withTempDir fs (chartRenderBody child pngName)

/-- Raw cell of a text (`object`-dtype) column of the DataFrame built by the
generated data-preparation code: a SQL `NULL` or a string. -/
inductive Cell where
  | null
  | text (s : String)
deriving DecidableEq, Repr

/-- A column after the cleaning loop of `_create_data_preparation_code` in
`chart_service.py`: kept as raw text, or replaced by its numeric coercion. -/
inductive PrepColumn where
  | kept (col : List Cell)
  | coerced (col : List Int)
deriving DecidableEq, Repr

/-- One cell under `pd.to_numeric(..., errors='coerce')`, parameterized by
the numeric parser `parse`: missing values and non-convertible strings
become `NaN` (`none`). -/
def toNumeric (parse : String → Option Int) : Cell → Option Int
  | .null => none
  | .text s => parse s

/-- Column-cleaning rule generated by `_create_data_preparation_code` in
`chart_service.py`: coerce the column to numeric, and adopt the coercion
(with `fillna(0)`) only if not every value coerced to `NaN` and the fraction
of successfully converted values over `len(df)` exceeds one half.  The float
comparison `notna().sum() / len(df) > 0.5` is rendered exactly by the
integer comparison `2 * converted > length` (the quotient of two such
machine-range naturals rounds to a value above one half precisely in that
case). -/
def cleanColumn (parse : String → Option Int) (col : List Cell) :
    PrepColumn :=
  let numeric := col.map (toNumeric parse)
  if (!numeric.all Option.isNone) &&
      decide (2 * numeric.countP Option.isSome > col.length) then
    .coerced (numeric.map (fun o => o.getD 0))
  else
    .kept col

/-- Decimal-literal parser standing in for `pd.to_numeric` on plain digit
strings; the threshold theorems quantify over the parser, this concrete one
serves the worked examples. -/
def parseDecimal (s : String) : Option Int :=
  if s != "" && s.data.all Char.isDigit then
    some (Int.ofNat (s.data.foldl (fun acc c => acc * 10 + (c.toNat - 48)) 0))
  else
    none
theorem ctxTruthy_some {context : JsonObj} {key : String}
    (h : ctxTruthy context key = true) :
    ∃ v, context.find key = some v ∧ v.truthy = true := by
  unfold ctxTruthy at h
  cases hfind : context.find key with
  | none => rw [hfind] at h; simp [Json.truthy] at h
  | some v =>
    rw [hfind] at h
    simp only [Option.getD] at h
    exact ⟨v, rfl, h⟩

theorem ctxTruthy_of_find {context : JsonObj} {key : String} {v : Json}
    (hfind : context.find key = some v) :
    ctxTruthy context key = v.truthy := by
  unfold ctxTruthy; rw [hfind]; rfl

theorem fallback_total (message : String) (context : JsonObj) :
    ∃ d, fallbackToolDecision message context = .ok d := by
  unfold fallbackToolDecision
  split
  next hguard =>
    have hq : ctxTruthy context "query" = true := by
      cases hq0 : ctxTruthy context "query" with
      | true => rfl
      | false => rw [hq0] at hguard; simp at hguard
    obtain ⟨v, hv, _⟩ := ctxTruthy_some hq
    rw [hv]; exact ⟨_, rfl⟩
  next =>
    split
    next h2 =>
      obtain ⟨v, hv, _⟩ := ctxTruthy_some h2
      rw [hv]; exact ⟨_, rfl⟩
    next => exact ⟨_, rfl⟩

/-- C3 (amended): the fallback router is total (never raises), and routes by
Python truthiness: a truthy `context.query` with a non-truthy
`context.headers` yields ExecuteSQL with exactly that query; a truthy
`context.headers` yields GenerateChart with those headers, `context.query`
defaulting to the empty string and `context.rows` defaulting to the empty
sequence; otherwise GenerateSQL with the message as question. -/
theorem fallback_routing_rules (message : String) (context : JsonObj) :
    (∃ d, fallbackToolDecision message context = .ok d) ∧
    (∀ q, context.find "query" = some q → q.truthy = true →
        ctxTruthy context "headers" = false →
        fallbackToolDecision message context =
          .ok ⟨"execute_sql", .cons "query" q .nil⟩) ∧
    (∀ h, context.find "headers" = some h → h.truthy = true →
        fallbackToolDecision message context =
          .ok ⟨"generate_chart",
            .cons "query" (context.findD "query" (.str ""))
              (.cons "headers" h
                (.cons "rows" (context.findD "rows" (.arr .nil)) .nil))⟩) ∧
    (ctxTruthy context "query" = false → ctxTruthy context "headers" = false →
        fallbackToolDecision message context =
          .ok ⟨"generate_sql", .cons "question" (.str message) .nil⟩) := by
  refine ⟨fallback_total message context, ?_, ?_, ?_⟩
  · intro q hq hqt hh
    have htq : ctxTruthy context "query" = true := by
      rw [ctxTruthy_of_find hq, hqt]
    simp [fallbackToolDecision, htq, hh, hq]
  · intro h hh hht
    have hth : ctxTruthy context "headers" = true := by
      rw [ctxTruthy_of_find hh, hht]
    simp [fallbackToolDecision, hth, hh]
  · intro htq hth
    simp [fallbackToolDecision, htq, hth]

/-- Witness for C3 at a concrete context with a truthy query and no
headers. -/
theorem fallback_routing_rules_witness :
    fallbackToolDecision "run it" (.cons "query" (Json.str "SELECT 1") .nil) =
      .ok ⟨"execute_sql", .cons "query" (Json.str "SELECT 1") .nil⟩ :=
  (fallback_routing_rules "run it" _).2.1 _ (by decide) (by decide) (by decide)

/-- Counterexample to C3 as stated: for the context in which "query" is
present but bound to the empty string (and "headers" is absent), the
fallback does not return ExecuteSQL with that query — it falls through to
GenerateSQL, because the router tests truthiness, not presence. -/
theorem fallback_presence_cex :
    (JsonObj.cons "query" (Json.str "") .nil).find "query" = some (Json.str "") ∧
    (JsonObj.cons "query" (Json.str "") .nil).find "headers" = none ∧
    fallbackToolDecision "run it" (JsonObj.cons "query" (Json.str "") .nil) ≠
      Except.ok ⟨"execute_sql", JsonObj.cons "query" (Json.str "") .nil⟩ := by
  decide

/-- C10: the fallback router distinguishes context keys by truthiness, not
presence: a context whose "query" value is the empty string (without truthy
headers) routes to GenerateSQL rather than ExecuteSQL, and a truthy "query"
with "headers" bound to the empty sequence routes to ExecuteSQL rather than
GenerateChart. -/
theorem fallback_truthiness (message : String) (context : JsonObj) :
    (context.find "query" = some (Json.str "") →
        ctxTruthy context "headers" = false →
        fallbackToolDecision message context =
          .ok ⟨"generate_sql", .cons "question" (.str message) .nil⟩) ∧
    (∀ q, context.find "query" = some q → q.truthy = true →
        context.find "headers" = some (Json.arr .nil) →
        fallbackToolDecision message context =
          .ok ⟨"execute_sql", .cons "query" q .nil⟩) := by
  constructor
  · intro hq hh
    have htq : ctxTruthy context "query" = false := by
      rw [ctxTruthy_of_find hq]; rfl
    simp [fallbackToolDecision, htq, hh]
  · intro q hq hqt hh
    have htq : ctxTruthy context "query" = true := by
      rw [ctxTruthy_of_find hq, hqt]
    have hth : ctxTruthy context "headers" = false := by
      rw [ctxTruthy_of_find hh]; rfl
    simp [fallbackToolDecision, htq, hth, hq]

/-- Witness for C10: truthy query plus empty-sequence headers routes to
ExecuteSQL. -/
theorem fallback_truthiness_witness :
    fallbackToolDecision "plot it"
        (.cons "query" (Json.str "SELECT 1") (.cons "headers" (Json.arr .nil) .nil)) =
      .ok ⟨"execute_sql", .cons "query" (Json.str "SELECT 1") .nil⟩ :=
  (fallback_truthiness "plot it" _).2 _ (by decide) (by decide) (by decide)

/-- C4 (amended): only a kernel (transport/service) error from the
tool-router call is recovered through the deterministic local fallback, so
a decision is always obtained in that case; any other routing failure —
any other exception, a reply that is not a JSON object, or an object reply
whose tool field is not a string or whose arguments field is not an object
(pydantic validation fails) — yields no decision and the endpoint surfaces
the error response "Could not determine tool". -/
theorem routing_failure_recovery (message : String) (context : JsonObj) :
    (∀ emsg, ∃ d, fallbackToolDecision message context = .ok d ∧
        agentDecide (.kernelError emsg) message context = .ok d) ∧
    (∀ emsg, agentDecide (.otherError emsg) message context =
        .error (errorResponse "Could not determine tool" "unknown")) ∧
    (∀ r, (∀ fields, r ≠ Json.obj fields) →
        agentDecide (.reply r) message context =
          .error (errorResponse "Could not determine tool" "unknown")) ∧
    (∀ fields,
        ((∀ t, fields.findD "tool" (.str "") ≠ Json.str t) ∨
          (∀ args, fields.findD "arguments" (.obj .nil) ≠ Json.obj args)) →
        agentDecide (.reply (Json.obj fields)) message context =
          .error (errorResponse "Could not determine tool" "unknown")) := by
  refine ⟨?_, fun _ => rfl, ?_, ?_⟩
  · intro emsg
    obtain ⟨d, hd⟩ := fallback_total message context
    refine ⟨d, hd, ?_⟩
    simp [agentDecide, getToolDecision, hd]
  · intro r hr
    cases r with
    | obj fields => exact absurd rfl (hr fields)
    | null => rfl
    | bool b => rfl
    | num n => rfl
    | str s => rfl
    | arr xs => rfl
  · intro fields hbad
    have hnone : getToolDecision (.reply (Json.obj fields)) message context =
        none := by
      rcases hbad with hb | hb
      · cases ht : fields.findD "tool" (.str "") with
        | str t => exact absurd ht (hb t)
        | null => simp [getToolDecision, ht]
        | bool b => simp [getToolDecision, ht]
        | num n => simp [getToolDecision, ht]
        | arr xs => simp [getToolDecision, ht]
        | obj o => simp [getToolDecision, ht]
      · cases ht : fields.findD "tool" (.str "") with
        | str t =>
          cases ha : fields.findD "arguments" (.obj .nil) with
          | obj args => exact absurd ha (hb args)
          | null => simp [getToolDecision, ht, ha]
          | bool b => simp [getToolDecision, ht, ha]
          | num n => simp [getToolDecision, ht, ha]
          | str s => simp [getToolDecision, ht, ha]
          | arr xs => simp [getToolDecision, ht, ha]
        | null => simp [getToolDecision, ht]
        | bool b => simp [getToolDecision, ht]
        | num n => simp [getToolDecision, ht]
        | arr xs => simp [getToolDecision, ht]
        | obj o => simp [getToolDecision, ht]
    simp [agentDecide, hnone]

/-- Witness for C4: a concrete kernel failure recovered to the fallback
GenerateSQL decision, and a concrete ill-typed object reply (a numeric
tool field) surfaced as the error response. -/
theorem routing_failure_recovery_witness :
    agentDecide (.kernelError "HTTP 503") "hi" .nil =
      .ok ⟨"generate_sql", .cons "question" (Json.str "hi") .nil⟩ ∧
    agentDecide (.reply (Json.obj (.cons "tool" (Json.num 42) .nil))) "hi" .nil =
      .error (errorResponse "Could not determine tool" "unknown") := by
  constructor
  · obtain ⟨d, hd, ha⟩ := (routing_failure_recovery "hi" .nil).1 "HTTP 503"
    have : d = ⟨"generate_sql", .cons "question" (Json.str "hi") .nil⟩ := by
      have := hd
      simp [fallbackToolDecision, ctxTruthy, JsonObj.find, Json.truthy] at this
      exact this.symm
    rw [← this]; exact ha
  · exact (routing_failure_recovery "hi" .nil).2.2.2
      (.cons "tool" (Json.num 42) .nil)
      (Or.inl (fun t h => Json.noConfusion (show Json.num 42 = Json.str t from h)))

/-- Counterexample to C4 as stated: a tool-router call that returns the
unparseable reply "not a json object" is not recovered by the fallback —
the endpoint surfaces the "Could not determine tool" error response instead
of the fallback's GenerateSQL decision. -/
theorem routing_unparseable_surfaced :
    agentDecide (.reply (Json.str "not a json object")) "hi" .nil =
      .error (errorResponse "Could not determine tool" "unknown") ∧
    agentDecide (.reply (Json.str "not a json object")) "hi" .nil ≠
      .ok ⟨"generate_sql", .cons "question" (Json.str "hi") .nil⟩ := by
  decide

theorem retrySql_cases (env : Nat → ToolCall → ToolResult) (e message : String)
    (context : JsonObj) :
    ((retrySqlWithCorrection env e message context).2 =
        [retryGenCall e message context] ∨
      ∃ sq, (retrySqlWithCorrection env e message context).2 =
        [retryGenCall e message context, retryExecCall sq]) ∧
    (∀ a, (retrySqlWithCorrection env e message context).1 = some a →
        a.success = true) := by
  rcases hg : env 1 (retryGenCall e message context) with corrected | m
  · rcases hm : corrected.member "sql_query" with _ | sq
    · constructor
      · left; simp [retrySqlWithCorrection, hg, hm]
      · intro a ha; simp [retrySqlWithCorrection, hg, hm] at ha
    · rcases hx : env 2 (retryExecCall sq) with data | m2
      · constructor
        · right; exact ⟨sq, by simp [retrySqlWithCorrection, hg, hm, hx]⟩
        · intro a ha
          simp [retrySqlWithCorrection, hg, hm, hx] at ha
          subst ha
          rfl
      · constructor
        · right; exact ⟨sq, by simp [retrySqlWithCorrection, hg, hm, hx]⟩
        · intro a ha; simp [retrySqlWithCorrection, hg, hm, hx] at ha
  · constructor
    · left; simp [retrySqlWithCorrection, hg]
    · intro a ha; simp [retrySqlWithCorrection, hg] at ha

/-- C1: when the initial ExecuteSQL call fails with a retryable error, the
turn issues at most one further GenerateSQL call and at most one further
ExecuteSQL call (so at most two ExecuteSQL calls in total), for every
behaviour of the tool oracle — in particular even when the second failure
is itself retryable; and whenever the turn does not succeed, it terminates
in the Failed response carrying the original ExecuteSQL error. -/
theorem retry_cap (env : Nat → ToolCall → ToolResult)
    (decision : ToolRouterDecision) (message : String) (context : JsonObj)
    (e : String)
    (hexec : env 0 ⟨decision.tool, decision.arguments⟩ = .raised e)
    (htool : decision.tool = "execute_sql")
    (hfix : isFixableSqlError e = true) :
    ((executeWithRetry env decision message context).2.countP
        (fun c => c.name == "generate_sql")) ≤ 1 ∧
    ((executeWithRetry env decision message context).2.countP
        (fun c => c.name == "execute_sql")) ≤ 2 ∧
    ((executeWithRetry env decision message context).1.success = false →
      (executeWithRetry env decision message context).1 =
        errorResponse e "execute_sql") := by
  have hcases := retrySql_cases env e message context
  rw [htool] at hexec
  rcases hrc : retrySqlWithCorrection env e message context with ⟨o, calls⟩
  rw [hrc] at hcases
  cases o with
  | none =>
    rcases hcases.1 with hc | ⟨sq, hc⟩ <;> subst hc <;>
      refine ⟨?_, ?_, fun _ => ?_⟩ <;>
      simp [executeWithRetry, htool, hexec, hfix, hrc, retryGenCall, retryExecCall]
  | some resp =>
    have hs : resp.success = true := hcases.2 resp rfl
    rcases hcases.1 with hc | ⟨sq, hc⟩ <;> subst hc <;>
      refine ⟨?_, ?_, fun hfalse => ?_⟩ <;>
      simp_all [executeWithRetry, htool, hexec, hfix, hrc, retryGenCall, retryExecCall]

/-- C2: given a failing initial call, a self-correction retry happens if
and only if the failed capability is execute_sql and the error message is
retryable (case-insensitive containment of one of the fixed keywords, per
`isFixableSqlError`); the retry GenerateSQL call uses
`context.get("original_question", message)` as the question and the failing
error text as error_feedback; otherwise the turn terminates in the Failed
response with no further tool call. -/
theorem retry_trigger (env : Nat → ToolCall → ToolResult)
    (decision : ToolRouterDecision) (message : String) (context : JsonObj)
    (e : String)
    (hexec : env 0 ⟨decision.tool, decision.arguments⟩ = .raised e) :
    (decision.tool = "execute_sql" → isFixableSqlError e = true →
      ∃ rest, (executeWithRetry env decision message context).2 =
        ⟨decision.tool, decision.arguments⟩ ::
          ToolCall.mk "generate_sql"
            (.cons "question" (context.findD "original_question" (.str message))
              (.cons "error_feedback" (.str e) .nil)) :: rest) ∧
    ((decision.tool = "execute_sql" → isFixableSqlError e = false) →
      executeWithRetry env decision message context =
        (errorResponse e decision.tool, [⟨decision.tool, decision.arguments⟩])) := by
  constructor
  · intro htool hfix
    have hcases := retrySql_cases env e message context
    rw [htool] at hexec ⊢
    rcases hrc : retrySqlWithCorrection env e message context with ⟨o, calls⟩
    rw [hrc] at hcases
    have hshape : calls = [retryGenCall e message context] ∨
        ∃ sq, calls = [retryGenCall e message context, retryExecCall sq] := hcases.1
    cases o with
    | none =>
      rcases hshape with hc | ⟨sq, hc⟩ <;> subst hc
      · exact ⟨[], by simp [executeWithRetry, htool, hexec, hfix, hrc, retryGenCall]⟩
      · exact ⟨[retryExecCall sq],
          by simp [executeWithRetry, htool, hexec, hfix, hrc, retryGenCall]⟩
    | some resp =>
      rcases hshape with hc | ⟨sq, hc⟩ <;> subst hc
      · exact ⟨[], by simp [executeWithRetry, htool, hexec, hfix, hrc, retryGenCall]⟩
      · exact ⟨[retryExecCall sq],
          by simp [executeWithRetry, htool, hexec, hfix, hrc, retryGenCall]⟩
  · intro hnofix
    have hguard : (decision.tool == "execute_sql" && isFixableSqlError e) = false := by
      by_cases htool : decision.tool = "execute_sql"
      · rw [htool, hnofix htool]; simp
      · have hb : (decision.tool == "execute_sql") = false := by
          simp [htool]
        rw [hb]; simp
    simp [executeWithRetry, hexec, hguard]

/-- Witness for C1 with an oracle that fails every call with "syntax
error": the call bound and the original-error Failed response hold at this
concrete input. -/
theorem retry_cap_witness :
    ((executeWithRetry (fun _ _ => ToolResult.raised "syntax error")
        ⟨"execute_sql", .cons "query" (Json.str "SELECT x FRO t") .nil⟩
        "run it" .nil).2.countP (fun c => c.name == "generate_sql")) ≤ 1 ∧
    ((executeWithRetry (fun _ _ => ToolResult.raised "syntax error")
        ⟨"execute_sql", .cons "query" (Json.str "SELECT x FRO t") .nil⟩
        "run it" .nil).2.countP (fun c => c.name == "execute_sql")) ≤ 2 ∧
    ((executeWithRetry (fun _ _ => ToolResult.raised "syntax error")
        ⟨"execute_sql", .cons "query" (Json.str "SELECT x FRO t") .nil⟩
        "run it" .nil).1.success = false →
      (executeWithRetry (fun _ _ => ToolResult.raised "syntax error")
        ⟨"execute_sql", .cons "query" (Json.str "SELECT x FRO t") .nil⟩
        "run it" .nil).1 = errorResponse "syntax error" "execute_sql") :=
  retry_cap (fun _ _ => ToolResult.raised "syntax error")
    ⟨"execute_sql", .cons "query" (Json.str "SELECT x FRO t") .nil⟩
    "run it" .nil "syntax error" rfl rfl (by decide)

/-- Witness for C2: with an original_question in the context, the retry
GenerateSQL call carries it together with the error feedback. -/
theorem retry_trigger_witness :
    ∃ rest, (executeWithRetry (fun _ _ => ToolResult.raised "syntax error")
        ⟨"execute_sql", .cons "query" (Json.str "SELECT 1") .nil⟩
        "run it" (.cons "original_question" (Json.str "how many users?") .nil)).2 =
      ToolCall.mk "execute_sql" (.cons "query" (Json.str "SELECT 1") .nil) ::
        ToolCall.mk "generate_sql"
          (.cons "question" (Json.str "how many users?")
            (.cons "error_feedback" (Json.str "syntax error") .nil)) :: rest :=
  (retry_trigger (fun _ _ => ToolResult.raised "syntax error")
    ⟨"execute_sql", .cons "query" (Json.str "SELECT 1") .nil⟩
    "run it" (.cons "original_question" (Json.str "how many users?") .nil)
    "syntax error" rfl).1 rfl (by decide)

/-- Counterexample to C5 as stated: when the remote chart-classification
call fails with a kernel error, the ClassifyChartType capability does not
yield a successful outcome with chart_type "bar" — it raises the error, so
the turn fails. -/
theorem classify_kernel_failure_cex :
    runClassifyChartType (.kernelError "connection refused") (Json.arr .nil) .nil =
      .error "connection refused" := by decide

/-- C5 (amended): when the remote classification call succeeds but its
reply carries no chart_type field, the capability still yields a successful
outcome with chart_type "bar"; but when the remote call itself fails, the
tool result reports success=false (still carrying chart_type "bar") and the
capability raises the error, failing the turn. -/
theorem classify_degradation (headers : Json) (rows : JsonList) :
    (∀ fields, fields.find "chart_type" = none →
        runClassifyChartType (.reply (Json.obj fields)) headers rows =
          .ok (Json.obj (.cons "chart_type" (.str "bar")
            (.cons "headers" headers
              (.cons "rows_count" (.num rows.length) .nil))))) ∧
    (∀ e, (toolClassifyChartType (.kernelError e) headers rows).member "success" =
          some (.bool false) ∧
        (toolClassifyChartType (.kernelError e) headers rows).member "chart_type" =
          some (.str "bar") ∧
        runClassifyChartType (.kernelError e) headers rows = .error e) := by
  constructor
  · intro fields hf
    simp [runClassifyChartType, toolClassifyChartType, JsonObj.findD, hf,
      Json.member, JsonObj.find, Json.truthy]
  · intro e
    refine ⟨rfl, rfl, ?_⟩
    simp [runClassifyChartType, toolClassifyChartType,
      Json.member, JsonObj.find, Json.truthy]

/-- Witness for C5: an empty successful reply degrades to a successful
"bar" outcome. -/
theorem classify_degradation_witness :
    runClassifyChartType (.reply (Json.obj .nil)) (Json.arr .nil) .nil =
      .ok (Json.obj (.cons "chart_type" (Json.str "bar")
        (.cons "headers" (Json.arr .nil)
          (.cons "rows_count" (Json.num 0) .nil)))) :=
  (classify_degradation (Json.arr .nil) .nil).1 .nil rfl

/-- Counterexample to C9 as stated: a chart-generator reply with no code
fails with "Failed to generate chart code", not with the claimed
"chart generation skill not available" (in either capitalization). -/
theorem chart_code_missing_cex :
    generateChartCode (.reply (Json.obj .nil)) =
      .error "Failed to generate chart code" ∧
    generateChartCode (.reply (Json.obj .nil)) ≠
      .error "chart generation skill not available" ∧
    generateChartCode (.reply (Json.obj .nil)) ≠
      .error "Chart generation skill not available" := by decide

/-- C9 (amended): a chart-generator reply with a missing or empty
chart_code fails with "Failed to generate chart code"; a non-empty string
code is returned as-is; and the error "Chart generation skill not
available" is raised exactly when the generator skill call itself fails
with a kernel error. -/
theorem chart_code_acquisition (fields : JsonObj) :
    (fields.find "chart_code" = none →
        generateChartCode (.reply (Json.obj fields)) =
          .error "Failed to generate chart code") ∧
    (fields.find "chart_code" = some (Json.str "") →
        generateChartCode (.reply (Json.obj fields)) =
          .error "Failed to generate chart code") ∧
    (∀ s, s ≠ "" → fields.find "chart_code" = some (Json.str s) →
        generateChartCode (.reply (Json.obj fields)) = .ok s) ∧
    (∀ e, generateChartCode (.kernelError e) =
        .error "Chart generation skill not available") := by
  refine ⟨?_, ?_, ?_, fun e => rfl⟩
  · intro hf; simp [generateChartCode, hf]
  · intro hf; simp [generateChartCode, hf]
  · intro s hs hf; simp [generateChartCode, hf, hs]

/-- Witness for C9 at a reply without a chart_code field. -/
theorem chart_code_acquisition_witness :
    generateChartCode (.reply (Json.obj (.cons "other" Json.null .nil))) =
      .error "Failed to generate chart code" :=
  (chart_code_acquisition (.cons "other" Json.null .nil)).1 rfl

/-- C6: the execution phase of the rendering pipeline yields exactly one
outcome per run — exceeding the 60-second wall-clock bound fails with the
timeout error; a non-zero exit fails with the process-failure error
carrying the child's stderr; a zero exit without the PNG artifact fails
with the missing-artifact error; and only when the artifact exists are its
bytes returned (base64-encoded) as the image. -/
theorem sandbox_outcomes (child : ChildProcess) :
    (60 < child.duration →
        generateChartImageRun child = .error "Chart generation timed out") ∧
    (child.duration ≤ 60 → child.exitCode ≠ 0 →
        generateChartImageRun child =
          .error ("Error executing chart code: Chart generation failed: " ++
            child.stderr)) ∧
    (child.duration ≤ 60 → child.exitCode = 0 → child.savesArtifact = false →
        generateChartImageRun child =
          .error "Error executing chart code: Chart image was not generated") ∧
    (child.duration ≤ 60 → child.exitCode = 0 → child.savesArtifact = true →
        generateChartImageRun child = .ok (base64Encode child.artifactBytes)) := by
  refine ⟨?_, ?_, ?_, ?_⟩
  · intro h
    simp [generateChartImageRun, executeChartGeneration, h]
  · intro h1 h2
    simp [generateChartImageRun, executeChartGeneration, Nat.not_lt.mpr h1, h2]
  · intro h1 h2 h3
    simp [generateChartImageRun, executeChartGeneration, Nat.not_lt.mpr h1, h2, h3]
  · intro h1 h2 h3
    simp [generateChartImageRun, executeChartGeneration, Nat.not_lt.mpr h1, h2, h3]

/-- Witness for C6: one concrete run per outcome of the taxonomy. -/
theorem sandbox_outcomes_witness :
    generateChartImageRun ⟨61, 0, "", "", false, []⟩ =
      .error "Chart generation timed out" ∧
    generateChartImageRun ⟨5, 1, "", "bad", false, []⟩ =
      .error "Error executing chart code: Chart generation failed: bad" ∧
    generateChartImageRun ⟨5, 0, "", "", false, []⟩ =
      .error "Error executing chart code: Chart image was not generated" ∧
    generateChartImageRun ⟨5, 0, "", "", true, [77, 97, 110]⟩ =
      .ok (base64Encode [77, 97, 110]) :=
  ⟨(sandbox_outcomes ⟨61, 0, "", "", false, []⟩).1 (by decide),
   (sandbox_outcomes ⟨5, 1, "", "bad", false, []⟩).2.1 (by decide) (by decide),
   (sandbox_outcomes ⟨5, 0, "", "", false, []⟩).2.2.1 (by decide) rfl rfl,
   (sandbox_outcomes ⟨5, 0, "", "", true, [77, 97, 110]⟩).2.2.2 (by decide) rfl rfl⟩

theorem le_foldr_max {l : List Nat} {x : Nat} (hx : x ∈ l) :
    x ≤ l.foldr max 0 := by
  induction l with
  | nil => cases hx
  | cons a l ih =>
    rcases List.mem_cons.mp hx with h | h
    · subst h; exact le_max_left _ _
    · exact le_trans (ih h) (le_max_right _ _)

theorem workspace_id_lt_fresh {fs : List Workspace} {w : Workspace}
    (hw : w ∈ fs) : w.id < freshWorkspaceId fs :=
  Nat.lt_succ_of_le (le_foldr_max (List.mem_map_of_mem Workspace.id hw))

theorem filter_wsAddFile (fs : List Workspace) (wid : Nat) (f : String) :
    (wsAddFile fs wid f).filter (fun w => w.id != wid) =
      fs.filter (fun w => w.id != wid) := by
  induction fs with
  | nil => rfl
  | cons a l ih =>
    show (((if a.id == wid then Workspace.mk a.id (f :: a.files) else a) ::
        wsAddFile l wid f).filter (fun w => w.id != wid)) = _
    by_cases h : a.id = wid
    · rw [if_pos (by simp [h]), List.filter_cons, List.filter_cons]
      rw [if_neg (by simp [h]), if_neg (by simp [h])]
      exact ih
    · rw [if_neg (by simp [h]), List.filter_cons, List.filter_cons]
      rw [if_pos (by simp [h]), if_pos (by simp [h]), ih]

theorem filter_ne_fresh (fs : List Workspace)
    (h : ∀ w ∈ fs, w.id ≠ freshWorkspaceId fs) :
    fs.filter (fun w => w.id != freshWorkspaceId fs) = fs := by
  apply List.filter_eq_self.mpr
  intro w hw
  simp [h w hw]

/-- C7: for every invocation of the rendering pipeline — success,
chart-process failure, timeout, and the pre-workspace code-acquisition
failure — the filesystem after the call equals the filesystem before it;
in particular the workspace directory created for the job no longer
exists when the call returns. -/
theorem workspace_cleanup (fs : List Workspace)
    (codeResult : Except String String) (child : ChildProcess)
    (pngName : String) :
    (generateChartImageFs fs codeResult child pngName).2 = fs ∧
    ∀ w ∈ (generateChartImageFs fs codeResult child pngName).2,
      w.id ≠ freshWorkspaceId fs := by
  have hfresh : ∀ w ∈ fs, w.id ≠ freshWorkspaceId fs :=
    fun w hw => Nat.ne_of_lt (workspace_id_lt_fresh hw)
  have hmain : (generateChartImageFs fs codeResult child pngName).2 = fs := by
    cases codeResult with
    | error e => rfl
    | ok code =>
      show (withTempDir fs (chartRenderBody child pngName)).2 = fs
      have hbase : (Workspace.mk (freshWorkspaceId fs) [] :: fs).filter
          (fun w => w.id != freshWorkspaceId fs) = fs := by
        rw [List.filter_cons]
        simp only [bne_self_eq_false, Bool.false_eq_true, if_false]
        exact filter_ne_fresh fs hfresh
      simp only [withTempDir, chartRenderBody]
      cases hp : executeChartGeneration child with
      | timedOut =>
        simp only [hp]
        rw [filter_wsAddFile, filter_wsAddFile, hbase]
      | completed rc out err =>
        simp only [hp, apply_ite Prod.snd, ite_self]
        cases hs : child.savesArtifact with
        | false =>
          rw [if_neg Bool.false_ne_true]
          rw [filter_wsAddFile, filter_wsAddFile, hbase]
        | true =>
          rw [if_pos rfl]
          rw [filter_wsAddFile, filter_wsAddFile, filter_wsAddFile, hbase]
  refine ⟨hmain, ?_⟩
  rw [hmain]
  exact hfresh

/-- Witness for C7 on a concrete filesystem and a timed-out render. -/
theorem workspace_cleanup_witness :
    (generateChartImageFs [⟨3, ["other.txt"]⟩] (.ok "plt.bar(x, y)")
        ⟨61, 0, "", "", false, []⟩ "chart_ab12.png").2 = [⟨3, ["other.txt"]⟩] ∧
    ∀ w ∈ (generateChartImageFs [⟨3, ["other.txt"]⟩] (.ok "plt.bar(x, y)")
        ⟨61, 0, "", "", false, []⟩ "chart_ab12.png").2,
      w.id ≠ freshWorkspaceId [⟨3, ["other.txt"]⟩] :=
  workspace_cleanup [⟨3, ["other.txt"]⟩] (.ok "plt.bar(x, y)")
    ⟨61, 0, "", "", false, []⟩ "chart_ab12.png"

/-- Counterexample to C8 as stated: in the column ["1", NULL, NULL, NULL]
strictly more than half of the non-missing values convert (one of one),
yet the column is kept as text, because the generated code divides by the
total row count, not by the number of non-missing values. -/
theorem colTyping_nonmissing_cex :
    (2 * (([Cell.text "1", Cell.null, Cell.null, Cell.null].map
        (toNumeric parseDecimal)).countP Option.isSome) >
      [Cell.text "1", Cell.null, Cell.null, Cell.null].countP
        (fun c => c != Cell.null)) ∧
    cleanColumn parseDecimal [Cell.text "1", Cell.null, Cell.null, Cell.null] =
      .kept [Cell.text "1", Cell.null, Cell.null, Cell.null] := by decide

/-- C8 (amended): a text column is replaced by its numeric coercion (with
non-convertible and missing values mapped to the fill value 0) exactly
when strictly more than half of all its values — missing entries counting
as failures — convert successfully; the spec's examples evaluate as
stated. -/
theorem colTyping_threshold :
    (∀ (parse : String → Option Int) (col : List Cell),
      cleanColumn parse col =
          .coerced ((col.map (toNumeric parse)).map (fun o => o.getD 0)) ↔
        2 * (col.map (toNumeric parse)).countP Option.isSome > col.length) ∧
    cleanColumn parseDecimal
        [Cell.text "1", Cell.text "2", Cell.text "x", Cell.text "3",
          Cell.text "4"] =
      .coerced [1, 2, 0, 3, 4] ∧
    cleanColumn parseDecimal
        [Cell.text "1", Cell.text "a", Cell.text "b", Cell.text "c"] =
      .kept [Cell.text "1", Cell.text "a", Cell.text "b", Cell.text "c"] := by
  refine ⟨?_, by decide, by decide⟩
  intro parse col
  constructor
  · intro h
    by_cases hc : 2 * (col.map (toNumeric parse)).countP Option.isSome > col.length
    · exact hc
    · exfalso
      have hkept : cleanColumn parse col = .kept col := by
        simp only [cleanColumn]
        rw [if_neg]
        intro hand
        rw [Bool.and_eq_true] at hand
        exact hc (of_decide_eq_true hand.2)
      rw [hkept] at h
      exact PrepColumn.noConfusion h
  · intro h
    have hpos : (col.map (toNumeric parse)).countP Option.isSome ≠ 0 := by
      intro h0
      rw [h0] at h
      simp at h
    have hall : ((col.map (toNumeric parse)).all Option.isNone) = false := by
      by_contra hcon
      rw [Bool.not_eq_false] at hcon
      apply hpos
      rw [List.countP_eq_zero]
      intro a ha
      have hnone := List.all_eq_true.mp hcon a ha
      cases a with
      | none => simp
      | some v => simp [Option.isNone] at hnone
  -- adopt the coerced column
    simp only [cleanColumn]
    rw [if_pos]
    rw [Bool.and_eq_true]
    exact ⟨by rw [hall]; rfl, decide_eq_true h⟩
